import Mathlib

/-!
Verification of the process-supervision core of hyprsunset-tray
(src/hyprsunset-tray.py, class HyprsunsetController).

Shallow embedding. The controller is single-threaded; each Python method is
a Lean function from controller state to (new state, trace of observable
events). Nondeterminism of the operating system (whether QProcess.start is
confirmed within waitForStarted(1000), whether the child exits within
waitForFinished(1000)) is passed in as explicit Boolean environment
parameters. A launch that is not confirmed within the timeout is modelled
as the process not running (QProcess state NotRunning / Starting, i.e. not
Running). QProcess.kill and the subsequent asynchronous delivery of the
`finished` signal (which runs `_on_finished`, logging and emitting
`state_changed(False)`) are resolved atomically inside the modelled call,
as they are on the single Qt event loop thread.
-/

namespace HyprsunsetTray

/-- State of a QProcess handle as observed through `QProcess.state()`:
`running` corresponds to `QProcess.ProcessState.Running`, `notRunning` to
any other state (NotRunning or Starting). -/
inductive PState where
  | notRunning
  | running
deriving DecidableEq

/-- Observable events of the controller: writes to the persistent QSettings
store, log lines, process spawns (`QProcess.start(bin, args)`), graceful
termination requests (`QProcess.terminate()` — available in the QProcess
API; recorded whenever the controller would call it), `QProcess.kill()`,
emissions of the `state_changed` signal, and `QTimer.singleShot`
scheduling. -/
inductive Event where
  | settingsWrite (key : String) (value : Int)
  | logInfo (msg : String)
  | logError (msg : String)
  | spawn (bin : String) (args : List String)
  | terminateReq
  | kill
  | emit (b : Bool)
  | schedule (ms : Nat)
deriving DecidableEq

/-- Controller state. `process` is `self.process` (None or a QProcess
handle with its current state); `oldProcs` records the states of QProcess
handles that were dropped when `start` reassigned `self.process` — they are
kept so that "at most one live child process" is a statement about every
process ever spawned, not only about the current handle (a dropped handle's
process never changes state again: only a running process can exit, and the
code only drops non-running handles). `temperature` is `self._temperature`;
`pending` counts `QTimer.singleShot(50, self.start)` callbacks that have
been scheduled but have not fired yet. -/
structure Ctrl where
  oldProcs : List PState
  process : Option PState
  temperature : Int
  pending : Nat
deriving DecidableEq

def MIN_TEMP : Int := 2000
def MAX_TEMP : Int := 6000
def HYPRSUNSET_BIN : String := "hyprsunset"

/-- `DEFAULT_TEMP = SETTINGS.value("temperature", 4000, int)`: the persisted
value if present, else 4000. Note the source applies no clamping here. -/
def DEFAULT_TEMP (stored : Option Int) : Int := stored.getD 4000

/-- `__init__`: `self.process = None; self._temperature = DEFAULT_TEMP`. -/
def init (stored : Option Int) : Ctrl :=
  { oldProcs := [], process := none, temperature := DEFAULT_TEMP stored, pending := 0 }

/-- `is_running`: `self.process is not None and self.process.state() == Running`. -/
def is_running (c : Ctrl) : Bool :=
  match c.process with
  | some PState.running => true
  | _ => false

/-- The clamp in `set_temperature`: `max(MIN_TEMP, min(MAX_TEMP, kelvin))`. -/
def clampTemp (k : Int) : Int := max MIN_TEMP (min MAX_TEMP k)

/-- `start(self) -> bool`. Early-returns True when already running.
Otherwise assigns a fresh QProcess (dropping any previous handle), starts
it and waits up to 1000ms for launch confirmation (`spawnOk`): on success
emits `state_changed(True)` and returns True; on failure logs an error and
returns False, leaving the dead handle in `self.process`. -/
def start (spawnOk : Bool) (c : Ctrl) : Ctrl × Bool × List Event :=
  if is_running c then (c, true, [])
  else
    let dropped := match c.process with
      | some p => c.oldProcs ++ [p]
      | none => c.oldProcs
    let args := ["-t", toString c.temperature]
    let evs := [Event.logInfo ("Starting hyprsunset with args: -t " ++ toString c.temperature),
                Event.spawn HYPRSUNSET_BIN args]
    if spawnOk then
      ({ c with oldProcs := dropped, process := some PState.running }, true,
        evs ++ [Event.emit true])
    else
      ({ c with oldProcs := dropped, process := some PState.notRunning }, false,
        evs ++ [Event.logError "Failed to start hyprsunset"])

/-- `stop(self) -> None`. The guard `not self.is_running or not self.process`
is equivalent to `not self.is_running`, since `is_running` already implies
`self.process is not None`. When running: `waitForFinished(1000)`; if the
child exits within the timeout (`exitedInTime`) the `finished` signal is
delivered during the wait and `_on_finished` runs; otherwise `kill()` is
issued and `finished` is delivered asynchronously right after. In both
cases `_on_finished` logs and emits `state_changed(False)`; the handle is
left in place (never reset to None). Note: no `terminate()` call appears
anywhere in the source. -/
def stop (exitedInTime : Bool) (c : Ctrl) : Ctrl × List Event :=
  if is_running c then
    if exitedInTime then
      ({ c with process := some PState.notRunning },
        [Event.logInfo "Stopping hyprsunset",
         Event.logInfo "hyprsunset terminated", Event.emit false])
    else
      ({ c with process := some PState.notRunning },
        [Event.logInfo "Stopping hyprsunset", Event.kill,
         Event.logInfo "hyprsunset terminated", Event.emit false])
  else (c, [])

/-- `_restart`: `self.stop(); QTimer.singleShot(50, self.start)`. -/
def restart (exitedInTime : Bool) (c : Ctrl) : Ctrl × List Event :=
  let r := stop exitedInTime c
  ({ r.1 with pending := r.1.pending + 1 }, r.2 ++ [Event.schedule 50])

/-- `set_temperature`: clamp, persist under key "temperature", and restart
only if currently running. -/
def set_temperature (exitedInTime : Bool) (k : Int) (c : Ctrl) : Ctrl × List Event :=
  let t := clampTemp k
  let c1 := { c with temperature := t }
  let evs := [Event.settingsWrite "temperature" t]
  if is_running c1 then
    let r := restart exitedInTime c1
    (r.1, evs ++ r.2)
  else (c1, evs)

/-- A scheduled `QTimer.singleShot(50, self.start)` callback firing: runs
`start` (its Bool result is discarded by the timer). No-op if no callback
is pending. -/
def timerFire (spawnOk : Bool) (c : Ctrl) : Ctrl × List Event :=
  match c.pending with
  | 0 => (c, [])
  | n + 1 =>
    let r := start spawnOk { c with pending := n }
    (r.1, r.2.2)

/-- The current child process exiting on its own (crash) or being killed
externally: the `finished` signal runs `_on_finished`, which logs and
emits `state_changed(False)`. No-op when nothing is running. -/
def procExit (c : Ctrl) : Ctrl × List Event :=
  if is_running c then
    ({ c with process := some PState.notRunning },
      [Event.logInfo "hyprsunset terminated", Event.emit false])
  else (c, [])

/-- Everything that can happen to the controller, with the environment's
choices (launch confirmed in time, child exited within the stop timeout)
carried in the action. -/
inductive Action where
  | act_start (spawnOk : Bool)
  | act_stop (exitedInTime : Bool)
  | act_set (exitedInTime : Bool) (k : Int)
  | act_timer (spawnOk : Bool)
  | act_exit
deriving DecidableEq

def step : Action → Ctrl → Ctrl × List Event
  | Action.act_start ok, c => ((start ok c).1, (start ok c).2.2)
  | Action.act_stop e, c => stop e c
  | Action.act_set e k, c => set_temperature e k c
  | Action.act_timer ok, c => timerFire ok c
  | Action.act_exit, c => procExit c

/-- Run a sequence of actions, concatenating the event traces. -/
def run (acts : List Action) (c : Ctrl) : Ctrl × List Event :=
  match acts with
  | [] => (c, [])
  | a :: rest => ((run rest (step a c).1).1, (step a c).2 ++ (run rest (step a c).1).2)

/-- Number of simultaneously live (running) child processes: the current
handle plus every dropped handle. -/
def runningCount (c : Ctrl) : Nat :=
  c.oldProcs.countP (fun p => p == PState.running) +
    (match c.process with
     | some PState.running => 1
     | _ => 0)

/-- The `state_changed` emissions of a trace, in order. -/
def emits : List Event → List Bool
  | [] => []
  | Event.emit b :: rest => b :: emits rest
  | _ :: rest => emits rest

/-- `alt b l`: the list alternates starting with `b`. -/
def alt : Bool → List Bool → Bool
  | _, [] => true
  | b, x :: xs => (x == b) && alt (!b) xs

/-- Flip a Boolean once per element of the list. -/
def flipLen : Bool → List Bool → Bool
  | b, [] => b
  | b, _ :: xs => flipLen (!b) xs

@[simp]
lemma is_running_update_temperature (c : Ctrl) (t : Int) :
    is_running { c with temperature := t } = is_running c := rfl

@[simp]
lemma is_running_update_pending (c : Ctrl) (n : Nat) :
    is_running { c with pending := n } = is_running c := rfl

@[simp]
lemma is_running_update_running (c : Ctrl) (l : List PState) :
    is_running { c with oldProcs := l, process := some PState.running } = true := rfl

@[simp]
lemma is_running_update_notRunning (c : Ctrl) (l : List PState) :
    is_running { c with oldProcs := l, process := some PState.notRunning } = false := rfl

@[simp]
lemma is_running_set_notRunning (c : Ctrl) :
    is_running { c with process := some PState.notRunning } = false := rfl

@[simp]
lemma is_running_mk_none (l : List PState) (t : Int) (n : Nat) :
    is_running ⟨l, none, t, n⟩ = false := rfl

@[simp]
lemma is_running_mk_notRunning (l : List PState) (t : Int) (n : Nat) :
    is_running ⟨l, some PState.notRunning, t, n⟩ = false := rfl

@[simp]
lemma is_running_mk_running (l : List PState) (t : Int) (n : Nat) :
    is_running ⟨l, some PState.running, t, n⟩ = true := rfl

/-- Claim C1: for every integer input `t`, `set_temperature(t)` sets the
stored temperature to `clamp(t, 2000, 6000)` and immediately (as the first
side effect) writes that clamped value to the persistent settings store
under the key "temperature". -/
theorem C1_set_temperature_clamps_and_persists (k : Int) (e : Bool) (c : Ctrl) :
    (set_temperature e k c).1.temperature = max 2000 (min 6000 k) ∧
    (set_temperature e k c).2.head? =
      some (Event.settingsWrite "temperature" (max 2000 (min 6000 k))) := by
  unfold set_temperature
  cases hc : is_running c <;>
    cases e <;>
      simp [restart, stop, clampTemp, MIN_TEMP, MAX_TEMP, hc]

/-- Claim C4: starting from a non-running controller, a successful `start`
reports running and returns True, and a second `start` without an
intervening `stop` returns True immediately, produces no events (in
particular spawns no second process), and leaves the state unchanged. -/
theorem C4_start_idempotent (c : Ctrl) (ok₂ : Bool) (h : is_running c = false) :
    is_running (start true c).1 = true ∧
    (start true c).2.1 = true ∧
    start ok₂ (start true c).1 = ((start true c).1, true, []) := by
  unfold start
  simp [h]

theorem C4_witness :
    is_running (init none) = false ∧
    (is_running (start true (init none)).1 = true ∧
     (start true (init none)).2.1 = true ∧
     start true (start true (init none)).1 = ((start true (init none)).1, true, [])) :=
  ⟨by decide, C4_start_idempotent (init none) true (by decide)⟩

/-- Claim C5: when the spawn fails or launch confirmation times out,
`start` returns False, logs an error, leaves the controller not running,
and emits no `state_changed` notification. -/
theorem C5_failed_start (c : Ctrl) (h : is_running c = false) :
    (start false c).2.1 = false ∧
    is_running (start false c).1 = false ∧
    Event.logError "Failed to start hyprsunset" ∈ (start false c).2.2 ∧
    ∀ b : Bool, Event.emit b ∉ (start false c).2.2 := by
  unfold start
  simp [h]

theorem C5_witness :
    is_running (init none) = false ∧
    ((start false (init none)).2.1 = false ∧
     is_running (start false (init none)).1 = false ∧
     Event.logError "Failed to start hyprsunset" ∈ (start false (init none)).2.2 ∧
     ∀ b : Bool, Event.emit b ∉ (start false (init none)).2.2) :=
  ⟨by decide, C5_failed_start (init none) (by decide)⟩

/-- Claim C10: after a failed `start`, `is_running` still reports false
even though a process object was allocated and retained in `self.process`,
and a subsequent `start` does not take the already-running early return:
it spawns again, and (except for the record of dropped handles) behaves
exactly as it would from a state whose handle is None. -/
theorem C10_failed_start_retry (c : Ctrl) (ok₂ : Bool) (h : is_running c = false) :
    (start false c).2.1 = false ∧
    is_running (start false c).1 = false ∧
    (start false c).1.process = some PState.notRunning ∧
    (start ok₂ (start false c).1).2 = (start ok₂ { (start false c).1 with process := none }).2 ∧
    (start ok₂ (start false c).1).1.process =
      (start ok₂ { (start false c).1 with process := none }).1.process ∧
    Event.spawn HYPRSUNSET_BIN ["-t", toString c.temperature] ∈
      (start ok₂ (start false c).1).2.2 := by
  unfold start
  cases ok₂ <;> simp [h]

theorem C10_witness :
    is_running (init none) = false ∧
    ((start false (init none)).2.1 = false ∧
     is_running (start false (init none)).1 = false ∧
     (start false (init none)).1.process = some PState.notRunning ∧
     (start true (start false (init none)).1).2 =
       (start true { (start false (init none)).1 with process := none }).2 ∧
     (start true (start false (init none)).1).1.process =
       (start true { (start false (init none)).1 with process := none }).1.process ∧
     Event.spawn HYPRSUNSET_BIN ["-t", toString (init none).temperature] ∈
       (start true (start false (init none)).1).2.2) :=
  ⟨by decide, C10_failed_start_retry (init none) true (by decide)⟩

/-- Claim C8, counterexample: after a successful start followed by a stop,
the controller is stopped but `self.process` is NOT None — the source never
resets the handle to None after `__init__`. -/
theorem C8_counterexample :
    is_running (run [Action.act_start true, Action.act_stop true] (init none)).1 = false ∧
    (run [Action.act_start true, Action.act_stop true] (init none)).1.process ≠ none := by
  decide

/-- Claim C8, amended: the handle is None only before the first start; when
the running process exits (via `stop`, crash or external kill) the handle
transitions to a retained non-running QProcess — it is never reset to
None — and the controller then reports not running. -/
theorem C8_handle_dead_not_none (c : Ctrl) (e : Bool) (h : is_running c = true) :
    (stop e c).1.process = some PState.notRunning ∧
    is_running (stop e c).1 = false ∧
    (procExit c).1.process = some PState.notRunning ∧
    is_running (procExit c).1 = false ∧
    (init none).process = none := by
  unfold stop procExit
  cases e <;> simp [h, init]

/-- A concrete running controller state, as reached by a successful start
from a fresh instance. -/
def cRun : Ctrl :=
  { oldProcs := [], process := some PState.running, temperature := 4000, pending := 0 }

theorem C8_witness :
    is_running cRun = true ∧
    ((stop true cRun).1.process = some PState.notRunning ∧
     is_running (stop true cRun).1 = false ∧
     (procExit cRun).1.process = some PState.notRunning ∧
     is_running (procExit cRun).1 = false ∧
     (init none).process = none) :=
  ⟨rfl, C8_handle_dead_not_none cRun true rfl⟩

/-- Claim C6 (code bug): `stop` on a running controller never requests
graceful termination — no such request ever appears in its trace; it only
waits, and when the child has not exited by the timeout it goes straight
to `kill`. -/
theorem C6_stop_never_requests_graceful_termination :
    (∀ (e : Bool) (c : Ctrl), Event.terminateReq ∉ (stop e c).2) ∧
    is_running cRun = true ∧
    Event.kill ∈ (stop false cRun).2 := by
  refine ⟨?_, rfl, by decide⟩
  intro e c
  unfold stop
  cases hc : is_running c <;> cases e <;> simp [hc]

/-- Claim C9, counterexample: `DEFAULT_TEMP` reads the persisted value
without clamping, so a controller initialized from a persisted value of
9999 holds a temperature outside [2000, 6000]. -/
theorem C9_counterexample :
    ¬(MIN_TEMP ≤ (init (some 9999)).temperature ∧
      (init (some 9999)).temperature ≤ MAX_TEMP) := by
  decide

lemma clampTemp_range (k : Int) : MIN_TEMP ≤ clampTemp k ∧ clampTemp k ≤ MAX_TEMP := by
  unfold clampTemp MIN_TEMP MAX_TEMP
  refine ⟨le_max_left _ _, max_le (by norm_num) (min_le_left _ _)⟩

@[simp]
lemma start_temperature (ok : Bool) (c : Ctrl) :
    (start ok c).1.temperature = c.temperature := by
  unfold start
  cases hc : is_running c <;> cases ok <;> simp [hc]

@[simp]
lemma stop_temperature (e : Bool) (c : Ctrl) :
    (stop e c).1.temperature = c.temperature := by
  unfold stop
  cases hc : is_running c <;> cases e <;> simp [hc]

@[simp]
lemma restart_temperature (e : Bool) (c : Ctrl) :
    (restart e c).1.temperature = c.temperature := by
  unfold restart
  simp

@[simp]
lemma set_temperature_temperature (e : Bool) (k : Int) (c : Ctrl) :
    (set_temperature e k c).1.temperature = clampTemp k := by
  unfold set_temperature
  cases hc : is_running c <;> simp [hc]

@[simp]
lemma timerFire_temperature (ok : Bool) (c : Ctrl) :
    (timerFire ok c).1.temperature = c.temperature := by
  unfold timerFire
  cases hp : c.pending <;> simp

@[simp]
lemma procExit_temperature (c : Ctrl) :
    (procExit c).1.temperature = c.temperature := by
  unfold procExit
  cases hc : is_running c <;> simp [hc]

lemma tempInRange_step (a : Action) (c : Ctrl)
    (h : MIN_TEMP ≤ c.temperature ∧ c.temperature ≤ MAX_TEMP) :
    MIN_TEMP ≤ (step a c).1.temperature ∧ (step a c).1.temperature ≤ MAX_TEMP := by
  cases a with
  | act_start ok => simpa [step] using h
  | act_stop e => simpa [step] using h
  | act_set e k => simpa [step] using clampTemp_range k
  | act_timer ok => simpa [step] using h
  | act_exit => simpa [step] using h

lemma tempInRange_run (acts : List Action) (c : Ctrl)
    (h : MIN_TEMP ≤ c.temperature ∧ c.temperature ≤ MAX_TEMP) :
    MIN_TEMP ≤ (run acts c).1.temperature ∧ (run acts c).1.temperature ≤ MAX_TEMP := by
  induction acts generalizing c with
  | nil => simpa [run] using h
  | cons a rest ih => simpa [run] using ih (step a c).1 (tempInRange_step a c h)

/-- Claim C9, amended: if the controller is initialized from a persisted
value inside [2000, 6000] (in particular from the default 4000, used when
nothing is persisted), then in every reachable state the temperature lies
in [2000, 6000]: every `set_temperature` clamps, and no other operation
changes the temperature. Initialization itself does not clamp. -/
theorem C9_temperature_invariant (acts : List Action) (stored : Option Int)
    (h : MIN_TEMP ≤ (init stored).temperature ∧ (init stored).temperature ≤ MAX_TEMP) :
    MIN_TEMP ≤ (run acts (init stored)).1.temperature ∧
      (run acts (init stored)).1.temperature ≤ MAX_TEMP :=
  tempInRange_run acts (init stored) h

theorem C9_witness :
    (MIN_TEMP ≤ (init none).temperature ∧ (init none).temperature ≤ MAX_TEMP) ∧
    (MIN_TEMP ≤ (run [Action.act_set true 9999] (init none)).1.temperature ∧
     (run [Action.act_set true 9999] (init none)).1.temperature ≤ MAX_TEMP) :=
  ⟨by decide, C9_temperature_invariant [Action.act_set true 9999] none (by decide)⟩

lemma proc_of_not_running (c : Ctrl) (p : PState)
    (hc : is_running c = false) (hp : c.process = some p) : p = PState.notRunning := by
  cases p with
  | notRunning => rfl
  | running => simp [is_running, hp] at hc

lemma oldProcs_dead_start (ok : Bool) (c : Ctrl)
    (h : ∀ p ∈ c.oldProcs, p = PState.notRunning) :
    ∀ p ∈ (start ok c).1.oldProcs, p = PState.notRunning := by
  unfold start
  cases hc : is_running c with
  | true => simpa [hc] using h
  | false =>
    cases hp : c.process with
    | none => cases ok <;> simpa [hc, hp] using h
    | some p =>
      have hq := proc_of_not_running c p hc hp
      subst hq
      cases ok
      all_goals
        simp [hc, hp]
        intro q hq
        cases hq with
        | inl h1 => exact h q h1
        | inr h1 => exact h1

lemma oldProcs_dead_step (a : Action) (c : Ctrl)
    (h : ∀ p ∈ c.oldProcs, p = PState.notRunning) :
    ∀ p ∈ (step a c).1.oldProcs, p = PState.notRunning := by
  cases a with
  | act_start ok => exact oldProcs_dead_start ok c h
  | act_stop e =>
    unfold step stop
    cases hc : is_running c <;> cases e <;> simpa [hc] using h
  | act_set e k =>
    unfold step set_temperature restart stop
    cases hc : is_running c <;> cases e <;> simpa [hc] using h
  | act_timer ok =>
    cases hp : c.pending with
    | zero => simpa [step, timerFire, hp] using h
    | succ n =>
      simpa [step, timerFire, hp] using oldProcs_dead_start ok { c with pending := n } h
  | act_exit =>
    unfold step procExit
    cases hc : is_running c <;> simpa [hc] using h

lemma oldProcs_dead_run (acts : List Action) (c : Ctrl)
    (h : ∀ p ∈ c.oldProcs, p = PState.notRunning) :
    ∀ p ∈ (run acts c).1.oldProcs, p = PState.notRunning := by
  induction acts generalizing c with
  | nil => simpa [run] using h
  | cons a rest ih => simpa [run] using ih (step a c).1 (oldProcs_dead_step a c h)

lemma runningCount_le_one (c : Ctrl)
    (h : ∀ p ∈ c.oldProcs, p = PState.notRunning) : runningCount c ≤ 1 := by
  unfold runningCount
  have hz : c.oldProcs.countP (fun p => p == PState.running) = 0 := by
    apply List.countP_eq_zero.mpr
    intro p hp
    simp [h p hp]
  rw [hz]
  cases hp : c.process with
  | none => simp
  | some p => cases p <;> simp

/-- Claim C2: in every reachable controller state — no matter which
sequence of start, stop, setTemperature, timer and process-exit actions
has run — at most one child process is live: every dropped handle refers
to a dead process, and the current handle is at most one process. -/
theorem C2_at_most_one_live_process (acts : List Action) (stored : Option Int) :
    runningCount (run acts (init stored)).1 ≤ 1 :=
  runningCount_le_one _
    (oldProcs_dead_run acts (init stored) (by intro p hp; simp [init] at hp))

lemma emits_append (t₁ t₂ : List Event) : emits (t₁ ++ t₂) = emits t₁ ++ emits t₂ := by
  induction t₁ with
  | nil => rfl
  | cons e rest ih => cases e <;> simp [emits, ih]

lemma flipLen_append (l₁ l₂ : List Bool) (b : Bool) :
    flipLen b (l₁ ++ l₂) = flipLen (flipLen b l₁) l₂ := by
  induction l₁ generalizing b with
  | nil => rfl
  | cons x xs ih => simp [flipLen, ih]

lemma flipLen_not (l : List Bool) (b : Bool) : flipLen (!b) l = !(flipLen b l) := by
  induction l generalizing b with
  | nil => rfl
  | cons x xs ih => simpa [flipLen] using ih (!b)

lemma alt_append (l₁ l₂ : List Bool) (b : Bool) :
    alt b (l₁ ++ l₂) = (alt b l₁ && alt (flipLen b l₁) l₂) := by
  induction l₁ generalizing b with
  | nil => simp [alt, flipLen]
  | cons x xs ih => simp [alt, flipLen, ih, Bool.and_assoc]

lemma step_alt (a : Action) (c : Ctrl) :
    alt (!is_running c) (emits (step a c).2) = true ∧
    is_running (step a c).1 = flipLen (is_running c) (emits (step a c).2) := by
  cases a with
  | act_start ok =>
    unfold step start
    cases hc : is_running c <;> cases ok <;> simp [hc, emits, alt, flipLen]
  | act_stop e =>
    unfold step stop
    cases hc : is_running c <;> cases e <;> simp [hc, emits, alt, flipLen]
  | act_set e k =>
    unfold step set_temperature restart stop
    cases hc : is_running c <;> cases e <;> simp [hc, emits, alt, flipLen]
  | act_timer ok =>
    unfold step timerFire start
    cases hp : c.pending with
    | zero => simp [hp, emits, alt, flipLen]
    | succ n =>
      cases hc : is_running c <;> cases ok <;> simp [hp, hc, emits, alt, flipLen]
  | act_exit =>
    unfold step procExit
    cases hc : is_running c <;> simp [hc, emits, alt, flipLen]

lemma run_alt (acts : List Action) (c : Ctrl) :
    alt (!is_running c) (emits (run acts c).2) = true ∧
    is_running (run acts c).1 = flipLen (is_running c) (emits (run acts c).2) := by
  induction acts generalizing c with
  | nil => simp [run, emits, alt, flipLen]
  | cons a rest ih =>
    obtain ⟨hs1, hs2⟩ := step_alt a c
    obtain ⟨hr1, hr2⟩ := ih (step a c).1
    have htr : (run (a :: rest) c).2 = (step a c).2 ++ (run rest (step a c).1).2 := by
      simp [run]
    have hst : (run (a :: rest) c).1 = (run rest (step a c).1).1 := by
      simp [run]
    constructor
    · rw [htr, emits_append, alt_append, hs1]
      have hf : flipLen (!is_running c) (emits (step a c).2) = !is_running (step a c).1 := by
        rw [flipLen_not, hs2]
      rw [hf, hr1]
      simp
    · rw [hst, hr2, hs2, htr, emits_append, flipLen_append]

/-- Claim C3: the `state_changed` emissions along any run from a fresh
controller strictly alternate true, false, true, false, … starting with
true, and the controller is running exactly when the last emission so far
was true (`flipLen false` flips once per emission). Hence each completed
lifecycle contributes exactly one `state_changed(true)` — when the start
is confirmed — followed by exactly one `state_changed(false)` — when the
exit (stop, crash or external kill) is observed. -/
theorem C3_state_changed_alternates (acts : List Action) (stored : Option Int) :
    alt true (emits (run acts (init stored)).2) = true ∧
    is_running (run acts (init stored)).1 =
      flipLen false (emits (run acts (init stored)).2) := by
  simpa [init, is_running] using run_alt acts (init stored)

/-- Claim C7: while running, `set_temperature` stops the daemon (a
`state_changed(false)` emission appears in its trace) and schedules one
deferred 50ms restart; when that deferred callback fires and the spawn
succeeds, its trace spawns the binary with `-t <clamped temperature>` and
emits `state_changed(true)`, leaving the daemon running with the new
clamped temperature. While not running, `set_temperature` only clamps and
persists: its whole effect is the settings write, with no process action. -/
theorem C7_set_temperature_restarts_with_new_value (k : Int) (e : Bool) (c : Ctrl) :
    (is_running c = true →
      Event.emit false ∈ (set_temperature e k c).2 ∧
      (set_temperature e k c).1.pending = c.pending + 1 ∧
      Event.schedule 50 ∈ (set_temperature e k c).2 ∧
      Event.spawn HYPRSUNSET_BIN ["-t", toString (clampTemp k)] ∈
        (timerFire true (set_temperature e k c).1).2 ∧
      Event.emit true ∈ (timerFire true (set_temperature e k c).1).2 ∧
      is_running (timerFire true (set_temperature e k c).1).1 = true ∧
      (timerFire true (set_temperature e k c).1).1.temperature = clampTemp k) ∧
    (is_running c = false →
      set_temperature e k c =
        ({ c with temperature := clampTemp k },
          [Event.settingsWrite "temperature" (clampTemp k)])) := by
  constructor
  · intro h
    unfold set_temperature restart stop timerFire start
    cases e <;> simp [h]
  · intro h
    unfold set_temperature
    simp [h]

theorem C7_witness :
    is_running cRun = true ∧
    (Event.emit false ∈ (set_temperature true 3000 cRun).2 ∧
     (set_temperature true 3000 cRun).1.pending = cRun.pending + 1 ∧
     Event.schedule 50 ∈ (set_temperature true 3000 cRun).2 ∧
     Event.spawn HYPRSUNSET_BIN ["-t", toString (clampTemp 3000)] ∈
       (timerFire true (set_temperature true 3000 cRun).1).2 ∧
     Event.emit true ∈ (timerFire true (set_temperature true 3000 cRun).1).2 ∧
     is_running (timerFire true (set_temperature true 3000 cRun).1).1 = true ∧
     (timerFire true (set_temperature true 3000 cRun).1).1.temperature = clampTemp 3000) :=
  ⟨rfl, (C7_set_temperature_restarts_with_new_value 3000 true cRun).1 rfl⟩

end HyprsunsetTray
